import Mathlib

/-
Verification of the content-rendering pipeline of website/models.py.

The repository is a set of Django models.  The only non-declarative logic is
the save-time hook shared (by copy) among WebsiteSection, NewsPost, Profile and
BlogPost: it renders a Markdown field to HTML with
markdown.markdown(source, extensions=["codehilite"]), sanitizes the result with
bleach.clean(html, allowed_html_tags, allowed_attrs), stores the sanitized HTML
in a derived field, optionally stamps a modified field, clears the process-wide
cache, and finally calls the framework save that persists the record.
Publication, Course and CarouselImage have the same save hook minus rendering.

HTML values are embedded at the token level, which is exactly the level at
which bleach itself operates: bleach parses input into a stream of start-tag,
end-tag and character tokens, maps its sanitizer filter over that stream, and
re-serializes.  The sanitizer filter keeps an allowed tag (dropping attributes
whose names are not in the allowed attribute list) and converts a disallowed
tag token into a plain text token holding the textual form of the tag (the
serializer later entity-escapes such text, which is why the re-parse of cleaned
output sees it as text, not as markup).

The Markdown expansion models Python-Markdown (as called by this repository:
extensions=["codehilite"], so the fenced_code extension is NOT loaded) on the
constructs the claims exercise:
  - blank input: Markdown.convert begins with `if not source.strip(): return`
    the empty string, and raises AttributeError when the source is None,
    because None has no strip method;
  - blocks are separated by blank lines;
  - a block starting with a block-level HTML element (markdown.util
    BLOCK_LEVEL_ELEMENTS, which contains script) is passed through raw up to
    the matching close tag, and trailing text continues as ordinary Markdown;
  - other blocks become paragraphs; inline processing recognizes backtick code
    spans (the BACKTICK inline pattern, compiled with DOTALL, so the span may
    cross line breaks; the matched content is stripped) and passes inline HTML
    tags through raw.  Without the fenced_code extension a ``` fence line is
    nothing but a run of backticks, so a fenced block collapses to a code span.
-/

/-- One token of an HTML token stream, as produced by the html5lib tokenizer
that bleach runs over its input: a start tag with its attribute list, an end
tag, or character data. -/
inductive HTok where
  | startTag (name : String) (attrs : List (String × String))
  | endTag (name : String)
  | text (s : String)
deriving DecidableEq, Repr

/-- Default allowed tag list of the bleach library (bleach.ALLOWED_TAGS). -/
def bleachDefaultAllowedTags : List String :=
  ["a", "abbr", "acronym", "b", "blockquote", "code",
   "em", "i", "li", "ol", "strong", "ul"]

/-- website/models.py line 14: allowed_html_tags = bleach.ALLOWED_TAGS + [...]. -/
def allowed_html_tags : List String :=
  bleachDefaultAllowedTags ++
    ["p", "pre", "table", "img",
     "h1", "h2", "h3", "h4", "h5",
     "h6", "b", "i", "strong", "em",
     "tt", "br", "blockquote",
     "code", "ul", "ol", "li",
     "dd", "dt", "a", "tr", "td",
     "div", "span", "hr"]

/-- website/models.py line 22: the attribute allow-list (the duplicate entry
for class is kept exactly as in the source). -/
def allowed_attrs : List String :=
  ["href", "class", "rel", "alt", "class", "src"]

/-- Textual form of one attribute inside a serialized tag. -/
def attrText (a : String × String) : String :=
  " " ++ a.1 ++ "=\"" ++ a.2 ++ "\""

/-- Textual form of a start tag, used when bleach turns a disallowed start-tag
token into character data. -/
def startTagText (n : String) (attrs : List (String × String)) : String :=
  "<" ++ n ++ String.join (attrs.map attrText) ++ ">"

/-- Textual form of an end tag, used when bleach turns a disallowed end-tag
token into character data. -/
def endTagText (n : String) : String :=
  "</" ++ n ++ ">"

/-- The per-token action of the bleach sanitizer filter with the allow-lists
this repository passes: an allowed tag survives with only allowed attributes;
a disallowed tag token becomes a text token (bleach escapes it rather than
dropping it, since the models call clean without strip=True); character data
passes through. -/
def cleanTok (t : HTok) : HTok :=
  match t with
  | HTok.startTag n attrs =>
      if allowed_html_tags.contains n then
        HTok.startTag n (attrs.filter (fun a => allowed_attrs.contains a.1))
      else
        HTok.text (startTagText n attrs)
  | HTok.endTag n =>
      if allowed_html_tags.contains n then HTok.endTag n
      else HTok.text (endTagText n)
  | HTok.text s => HTok.text s

/-- Model of bleach.clean(html, allowed_html_tags, allowed_attrs) at the token
level: the sanitizer filter mapped over the token stream. -/
def bleach_clean (ts : List HTok) : List HTok :=
  ts.map cleanTok

/-- The backtick character (code point 96). -/
def backtickChar : Char := Char.ofNat 96

/-- Characters admissible in an HTML tag name. -/
def isTagNameChar (c : Char) : Bool :=
  c.isAlpha || c.isDigit

/-- Characters admissible in an HTML attribute name. -/
def isAttrNameChar (c : Char) : Bool :=
  c.isAlpha || c.isDigit || c = '-'

/-- Lower-cased string from a character list (html5lib lower-cases tag and
attribute names). -/
def lcString (cs : List Char) : String :=
  String.mk (cs.map Char.toLower)

/-- Model of the Python str.strip method on a character list. -/
def trimChars (cs : List Char) : List Char :=
  ((cs.dropWhile Char.isWhitespace).reverse.dropWhile Char.isWhitespace).reverse

/-- Whether pat is a leading segment of l. -/
def startsWith : List Char → List Char → Bool
  | [], _ => true
  | _ :: _, [] => false
  | p :: ps, c :: cs => p = c && startsWith ps cs

/-- First occurrence of pat inside l: the part before it and the part after
it.  Fuel-driven; fuel = length of l + 1 always suffices because each step
consumes one character. -/
def findSeq (pat : List Char) : Nat → List Char → Option (List Char × List Char)
  | 0, _ => none
  | fuel + 1, l =>
      if startsWith pat l then some ([], l.drop pat.length)
      else
        match l with
        | [] => none
        | c :: cs =>
            match findSeq pat fuel cs with
            | some (pre, post) => some (c :: pre, post)
            | none => none

/-- Attribute list of a tag being scanned: consumes up to and past the closing
angle bracket, returning none when the input ends before the tag is closed
(the candidate is then not a tag and is treated as literal text). -/
def parseAttrs : Nat → List Char → Option (List (String × String) × List Char)
  | 0, _ => none
  | _ + 1, [] => none
  | _ + 1, '>' :: r => some ([], r)
  | _ + 1, '/' :: '>' :: r => some ([], r)
  | fuel + 1, c :: cs =>
      if c.isWhitespace then parseAttrs fuel cs
      else if isAttrNameChar c then
        let nm := (c :: cs).takeWhile isAttrNameChar
        let r1 := (c :: cs).dropWhile isAttrNameChar
        match r1 with
        | '=' :: '"' :: r2 =>
            let v := r2.takeWhile (fun x => x ≠ '"')
            let r3 := r2.dropWhile (fun x => x ≠ '"')
            (match r3 with
             | '"' :: r4 =>
                 (match parseAttrs fuel r4 with
                  | some (as, rest) => some ((lcString nm, String.mk v) :: as, rest)
                  | none => none)
             | _ => none)
        | _ =>
            (match parseAttrs fuel r1 with
             | some (as, rest) => some ((lcString nm, "") :: as, rest)
             | none => none)
      else none

/-- One HTML tag at the head of the input: a start tag with attributes or an
end tag; none when the head of the input is not a complete tag. -/
def parseTag : List Char → Option (HTok × List Char)
  | '<' :: '/' :: cs =>
      let nm := cs.takeWhile isTagNameChar
      if nm.isEmpty then none
      else
        (match cs.dropWhile isTagNameChar with
         | '>' :: r => some (HTok.endTag (lcString nm), r)
         | _ => none)
  | '<' :: cs =>
      let nm := cs.takeWhile isTagNameChar
      if nm.isEmpty then none
      else
        (match parseAttrs (cs.length + 1) (cs.dropWhile isTagNameChar) with
         | some (attrs, r) => some (HTok.startTag (lcString nm) attrs, r)
         | none => none)
  | _ => none

/-- Emits the accumulated (reversed) character data as a text token in front of
rest, omitting empty text tokens. -/
def flushText (acc : List Char) (rest : List HTok) : List HTok :=
  if acc.isEmpty then rest else HTok.text (String.mk acc.reverse) :: rest

/-- Character scanner turning inline content into tokens.  HTML tags pass
through raw; when allowCode is set, a run of backticks opens a code span that
closes at the next equal run, the content being stripped, which is the BACKTICK
inline pattern of Python-Markdown (raw HTML blocks are scanned with allowCode
off because their content is stashed, not inline-processed).  Fuel-driven;
fuel = input length + 1 suffices since every step consumes at least one
character. -/
def scanAux (allowCode : Bool) : Nat → List Char → List Char → List HTok
  | 0, acc, cs => flushText (cs.reverse ++ acc) []
  | _ + 1, acc, [] => flushText acc []
  | fuel + 1, acc, '<' :: cs =>
      (match parseTag ('<' :: cs) with
       | some (t, r) => flushText acc (t :: scanAux allowCode fuel [] r)
       | none => scanAux allowCode fuel ('<' :: acc) cs)
  | fuel + 1, acc, c :: cs =>
      if allowCode && c = backtickChar then
        let run := (c :: cs).takeWhile (fun x => x = backtickChar)
        let rest := (c :: cs).dropWhile (fun x => x = backtickChar)
        match findSeq run (rest.length + 1) rest with
        | some (content, after) =>
            flushText acc
              (HTok.startTag "code" [] ::
               HTok.text (String.mk (trimChars content)) ::
               HTok.endTag "code" :: scanAux allowCode fuel [] after)
        | none => scanAux allowCode fuel (run.reverse ++ acc) rest
      else scanAux allowCode fuel (c :: acc) cs

/-- Scanner entry point with sufficient fuel. -/
def scanChars (allowCode : Bool) (cs : List Char) : List HTok :=
  scanAux allowCode (cs.length + 1) [] cs

/-- Splits source text into blocks at blank lines, as the Markdown core loop
does. -/
def splitBlocksAux : Nat → List Char → List Char → List (List Char)
  | 0, acc, cs => [acc.reverse ++ cs]
  | _ + 1, acc, [] => [acc.reverse]
  | fuel + 1, acc, '\n' :: '\n' :: cs => acc.reverse :: splitBlocksAux fuel [] cs
  | fuel + 1, acc, c :: cs => splitBlocksAux fuel (c :: acc) cs

/-- Block splitter entry point with sufficient fuel. -/
def splitBlocks (cs : List Char) : List (List Char) :=
  splitBlocksAux (cs.length + 1) [] cs

/-- Block-level HTML element names of markdown.util.BLOCK_LEVEL_ELEMENTS; a
block opening with one of these is handed to the raw-HTML block processor.
Note that script and style are in the list: Python-Markdown passes them
through raw and leaves sanitization entirely to the caller. -/
def blockLevelElements : List String :=
  ["address", "article", "aside", "blockquote", "details", "div", "dl",
   "dd", "dt", "fieldset", "figcaption", "figure", "footer", "form",
   "h1", "h2", "h3", "h4", "h5", "h6", "header", "hgroup", "hr", "main",
   "menu", "nav", "ol", "p", "pre", "section", "table", "ul", "canvas",
   "colgroup", "body", "iframe", "li", "legend", "math", "map", "noscript",
   "output", "object", "option", "progress", "script", "style", "tbody",
   "td", "textarea", "tfoot", "th", "thead", "tr", "video"]

/-- Characters of the close tag of the named element. -/
def closeTagSeq (name : String) : List Char :=
  ('<' :: '/' :: name.data) ++ ['>']

/-- A paragraph block: inline-processed content wrapped in a p element. -/
def paragraphToks (b : List Char) : List HTok :=
  HTok.startTag "p" [] :: (scanChars true b ++ [HTok.endTag "p"])

/-- A raw HTML block opening with a block-level element: everything up to and
including the matching close tag is passed through raw (stashed, so not
inline-processed), and non-blank trailing text continues as a paragraph, which
is what the HtmlBlockPreprocessor does when text follows the close tag. -/
def expandRawBlock (name : String) (b : List Char) : List HTok :=
  match findSeq (closeTagSeq name) (b.length + 1) b with
  | some (pre, post) =>
      scanChars false (pre ++ closeTagSeq name) ++
        (if (trimChars post).isEmpty then [] else paragraphToks (trimChars post))
  | none => scanChars false b

/-- One block of Markdown source. -/
def expandBlock (cs : List Char) : List HTok :=
  let b := trimChars cs
  if b.isEmpty then []
  else
    match b with
    | '<' :: rest =>
        let nm := rest.takeWhile isTagNameChar
        if !nm.isEmpty && blockLevelElements.contains (lcString nm) then
          expandRawBlock (lcString nm) b
        else paragraphToks b
    | _ => paragraphToks b

/-- Model of markdown.markdown(s, extensions=["codehilite"]) on a string, at
the token level.  Blank input yields the empty output, per the first line of
Markdown.convert.  The codehilite extension only decorates indented code
blocks; the fenced_code extension is not loaded by this repository, so there
is no fenced-code processing here, exactly as in the running code. -/
def mdExpand (s : String) : List HTok :=
  if (trimChars s.data).isEmpty then []
  else ((splitBlocks s.data).map expandBlock).flatten

/-- The one failure the rendering path can produce: Markdown.convert starts
with source.strip(), so a None source raises AttributeError before any output
exists. -/
inductive RenderError where
  | attributeErrorNoneInput
deriving DecidableEq, Repr

/-- Model of markdown.markdown applied to a possibly-null field value: a None
argument raises (AttributeError on None.strip()), any string converts. -/
def markdown_markdown (src : Option String) : Except RenderError (List HTok) :=
  match src with
  | none => Except.error RenderError.attributeErrorNoneInput
  | some s => Except.ok (mdExpand s)

/-- The full rendering pipeline every rendering save runs on its (non-null)
Markdown source: Markdown expansion followed by bleach sanitization. -/
def renderMarkdown (m : String) : List HTok :=
  bleach_clean (mdExpand m)

/-- Observable side effects of one save call, in program order: cacheClear is
the call to cache.clear() (Django clears the whole configured cache, there is
no key argument), dbWrite is the call to the framework save that persists the
current field values of the record. -/
inductive SaveEvent where
  | cacheClear
  | dbWrite
deriving DecidableEq, BEq, Repr

/-- website/models.py class WebsiteSection: fields, with the two date fields
and timestamps as abstract instants (Nat). -/
structure WebsiteSection where
  title : String
  body_markdown : String
  body_html : List HTok
  created : Nat
  modified : Nat
  website_position_id : String
  section_type : String
  show_in_nav : Bool
deriving DecidableEq, Repr

/-- WebsiteSection.save: render body_markdown, sanitize into body_html, stamp
modified with the current time, clear the cache, then persist.  now models
datetime.datetime.now(). -/
def WebsiteSection.save (now : Nat) (r : WebsiteSection) :
    WebsiteSection × List SaveEvent :=
  let html_content := mdExpand r.body_markdown
  ({ r with
      body_html := bleach_clean html_content,
      modified := now },
   [SaveEvent.cacheClear, SaveEvent.dbWrite])

/-- website/models.py class NewsPost. -/
structure NewsPost where
  title : String
  body_markdown : String
  body_html : List HTok
  description : String
  post_date : Nat
  created : Nat
  modified : Nat
deriving DecidableEq, Repr

/-- NewsPost.save: identical pipeline to WebsiteSection.save. -/
def NewsPost.save (now : Nat) (r : NewsPost) : NewsPost × List SaveEvent :=
  let html_content := mdExpand r.body_markdown
  ({ r with
      body_html := bleach_clean html_content,
      modified := now },
   [SaveEvent.cacheClear, SaveEvent.dbWrite])

/-- website/models.py class Publication (no Markdown rendering). -/
structure Publication where
  title : String
  url : String
  author : String
  doi : Option String
  entry_type : Option String
  published_in : Option String
  publisher : Option String
  year_of_publication : Option String
  month_of_publication : Option String
  bibtex : Option String
  project_url : Option String
  pdf : Option String
  abstract : Option String
  is_highlighted : Bool
  created : Nat
  modified : Nat
deriving DecidableEq, Repr

/-- Publication.save: stamp modified, clear the cache, then persist. -/
def Publication.save (now : Nat) (r : Publication) : Publication × List SaveEvent :=
  ({ r with modified := now }, [SaveEvent.cacheClear, SaveEvent.dbWrite])

/-- website/models.py class Course (no Markdown rendering). -/
structure Course where
  title : String
  acronym : String
  level : String
  prerequisite : String
  description : String
  syllabus : Option String
  created : Nat
  modified : Nat
deriving DecidableEq, Repr

/-- Course.save: stamp modified, clear the cache, then persist. -/
def Course.save (now : Nat) (r : Course) : Course × List SaveEvent :=
  ({ r with modified := now }, [SaveEvent.cacheClear, SaveEvent.dbWrite])

/-- website/models.py class CarouselImage (no Markdown rendering). -/
structure CarouselImage where
  image_caption : String
  image_description : Option String
  target_url : Option String
  image_url : String
  display_description : Bool
  created : Nat
  modified : Nat
deriving DecidableEq, Repr

/-- CarouselImage.save: stamp modified, clear the cache, then persist. -/
def CarouselImage.save (now : Nat) (r : CarouselImage) :
    CarouselImage × List SaveEvent :=
  ({ r with modified := now }, [SaveEvent.cacheClear, SaveEvent.dbWrite])

/-- website/models.py class Profile.  user and position are foreign keys,
modeled as identifiers.  profile_page_markdown is a nullable text field
(null=True), so its value is an Option; likewise profile_page_html.  Note the
class has no modified field. -/
structure Profile where
  user : Nat
  full_name : String
  avatar_img : Option String
  contactNumber : Option String
  emailId : Option String
  contactURL : Option String
  description : Option String
  position : Option Nat
  profile_page_markdown : Option String
  profile_page_html : Option (List HTok)
deriving DecidableEq, Repr

/-- Profile.save: markdown.markdown(self.profile_page_markdown) runs first; a
None source raises, the exception propagates (there is no try block), so
neither cache.clear() nor the framework save runs and nothing is persisted:
the event list is empty on error.  On success the sanitized HTML is stored and
the save proceeds.  The save body never reads the clock (there is no modified
field); the unused now parameter keeps the ambient clock in the signature for
uniformity with the other models. -/
def Profile.save (_now : Nat) (p : Profile) :
    Except RenderError Profile × List SaveEvent :=
  match markdown_markdown p.profile_page_markdown with
  | Except.error e => (Except.error e, [])
  | Except.ok html_content =>
      (Except.ok { p with profile_page_html := some (bleach_clean html_content) },
       [SaveEvent.cacheClear, SaveEvent.dbWrite])

/-- website/models.py class BlogPost.  body is a required text field; body_html
is nullable.  Note the class has no modified field (posted is auto_now_add,
set only at creation, and save does not touch it). -/
structure BlogPost where
  title : String
  identifier : String
  body : String
  posted : Nat
  author : Nat
  body_html : Option (List HTok)
deriving DecidableEq, Repr

/-- BlogPost.save: render body, sanitize into body_html, clear the cache, then
persist.  No timestamp is written; the unused now parameter keeps the ambient
clock in the signature. -/
def BlogPost.save (_now : Nat) (b : BlogPost) : BlogPost × List SaveEvent :=
  let html_content := mdExpand b.body
  ({ b with body_html := some (bleach_clean html_content) },
   [SaveEvent.cacheClear, SaveEvent.dbWrite])

/-- Whether a single token is admissible for the allow-lists: character data
always, tags only when the tag name is allowed and (for start tags) every
attribute name is allowed. -/
def tokAllowed (t : HTok) : Bool :=
  match t with
  | HTok.startTag n attrs =>
      allowed_html_tags.contains n &&
        attrs.all (fun a => allowed_attrs.contains a.1)
  | HTok.endTag n => allowed_html_tags.contains n
  | HTok.text _ => true

/-- Whether a whole token stream is admissible for the allow-lists. -/
def tokensAllowed (ts : List HTok) : Bool :=
  ts.all tokAllowed

/-- Admissibility of a nullable HTML field. -/
def optHtmlAllowed : Option (List HTok) → Bool
  | none => true
  | some ts => tokensAllowed ts

/-- The HTML that a Profile save outcome leaves behind: the stored field on
success, nothing on error (the failed save persists nothing). -/
def profileResultHtml : Except RenderError Profile → Option (List HTok)
  | Except.ok q => q.profile_page_html
  | Except.error _ => none

/-- Plain Option view of a render outcome. -/
def exceptToOption : Except RenderError (List HTok) → Option (List HTok)
  | Except.ok ts => some ts
  | Except.error _ => none

/-- Whether the stream holds a tag token (start or end) with the given name. -/
def containsTagNamed (ts : List HTok) (n : String) : Bool :=
  ts.any (fun t =>
    match t with
    | HTok.startTag m _ => m == n
    | HTok.endTag m => m == n
    | HTok.text _ => false)

/-- Number of full cache invalidations in an event list. -/
def countClears (evs : List SaveEvent) : Nat :=
  evs.count SaveEvent.cacheClear

/-- True when no cache invalidation occurs before the first persistence write:
the ordering the spec prescribes (persist first, invalidate after). -/
def invalidatesOnlyAfterPersist (evs : List SaveEvent) : Bool :=
  (evs.takeWhile (fun e => e != SaveEvent.dbWrite)).all
    (fun e => e != SaveEvent.cacheClear)

/-- True when the event list opens with a cache invalidation that is followed
by a persistence write: the ordering the code actually performs. -/
def clearPrecedesWrite : List SaveEvent → Bool
  | [] => false
  | SaveEvent.cacheClear :: r => r.contains SaveEvent.dbWrite
  | SaveEvent.dbWrite :: _ => false

/-- Sample Profile whose profile_page_markdown is NULL, the default of the
nullable field when a Profile is created without it. -/
def profileNull : Profile :=
  { user := 1, full_name := "x", avatar_img := none, contactNumber := none,
    emailId := none, contactURL := none, description := none, position := none,
    profile_page_markdown := none, profile_page_html := none }

/-- Sample Profile with a present Markdown source. -/
def profileHello : Profile :=
  { profileNull with profile_page_markdown := some "hello" }

/-- Sample BlogPost. -/
def blogPostHello : BlogPost :=
  { title := "t", identifier := "t", body := "hello", posted := 0, author := 1,
    body_html := none }

/-- Sample WebsiteSection. -/
def sectionHello : WebsiteSection :=
  { title := "t", body_markdown := "hello", body_html := [], created := 0,
    modified := 0, website_position_id := "home", section_type := "page",
    show_in_nav := false }

theorem all_filter_self {α : Type} (p : α → Bool) (l : List α) :
    (l.filter p).all p = true := by
  induction l with
  | nil => rfl
  | cons a l ih =>
      by_cases h : p a = true
      · simp [List.filter_cons, h, List.all_cons, ih]
      · simp [List.filter_cons, h, ih]

theorem filter_self_idem {α : Type} (p : α → Bool) (l : List α) :
    (l.filter p).filter p = l.filter p := by
  induction l with
  | nil => rfl
  | cons a l ih =>
      by_cases h : p a = true
      · simp [List.filter_cons, h, ih]
      · simp [List.filter_cons, h, ih]

theorem tokAllowed_cleanTok (t : HTok) : tokAllowed (cleanTok t) = true := by
  cases t with
  | startTag n attrs =>
      by_cases h : n ∈ allowed_html_tags
      · simp [cleanTok, tokAllowed, h, all_filter_self]
      · simp [cleanTok, tokAllowed, h]
  | endTag n =>
      by_cases h : n ∈ allowed_html_tags
      · simp [cleanTok, tokAllowed, h]
      · simp [cleanTok, tokAllowed, h]
  | text s => rfl

theorem cleanTok_idem (t : HTok) : cleanTok (cleanTok t) = cleanTok t := by
  cases t with
  | startTag n attrs =>
      by_cases h : n ∈ allowed_html_tags
      · simp [cleanTok, h, filter_self_idem]
      · simp [cleanTok, h]
  | endTag n =>
      by_cases h : n ∈ allowed_html_tags <;> simp [cleanTok, h]
  | text s => rfl

theorem tokensAllowed_clean (ts : List HTok) :
    tokensAllowed (bleach_clean ts) = true := by
  induction ts with
  | nil => rfl
  | cons t ts ih =>
      show (tokAllowed (cleanTok t) && tokensAllowed (bleach_clean ts)) = true
      rw [tokAllowed_cleanTok, ih]
      rfl

theorem clean_idem (ts : List HTok) :
    bleach_clean (bleach_clean ts) = bleach_clean ts := by
  induction ts with
  | nil => rfl
  | cons t ts ih =>
      show cleanTok (cleanTok t) :: bleach_clean (bleach_clean ts)
          = cleanTok t :: bleach_clean ts
      rw [cleanTok_idem, ih]

/-- C1: for every Markdown input m, the rendered output (markdown expansion
followed by bleach sanitization, the pipeline every ContentRecord save runs)
contains no HTML tag outside allowed_html_tags and no attribute outside
allowed_attrs; consequently the HTML stored by every rendering save is
admissible for the allow-lists. -/
theorem C1_render_output_sanitized :
    ∀ (m : String) (now : Nat) (ws : WebsiteSection) (np : NewsPost)
      (bp : BlogPost) (p : Profile),
      tokensAllowed (renderMarkdown m) = true ∧
      tokensAllowed ((WebsiteSection.save now ws).1.body_html) = true ∧
      tokensAllowed ((NewsPost.save now np).1.body_html) = true ∧
      optHtmlAllowed ((BlogPost.save now bp).1.body_html) = true ∧
      optHtmlAllowed (profileResultHtml (Profile.save now p).1) = true := by
  intro m now ws np bp p
  refine ⟨tokensAllowed_clean _, tokensAllowed_clean _, tokensAllowed_clean _,
          ?_, ?_⟩
  · show tokensAllowed (bleach_clean (mdExpand bp.body)) = true
    exact tokensAllowed_clean _
  · cases h : markdown_markdown p.profile_page_markdown with
    | error e => simp [Profile.save, h, profileResultHtml, optHtmlAllowed]
    | ok toks =>
        simp [Profile.save, h, profileResultHtml, optHtmlAllowed,
              tokensAllowed_clean]

/-- C2: after any save, the persisted rendered-HTML field is exactly the
sanitized render of the persisted Markdown source of that save, and the value
the rendered field held before the save is irrelevant to the persisted
outcome, so callers cannot persist the rendered field independently of the
source through save. -/
theorem C2_rendered_html_derived :
    ∀ (now : Nat) (ws : WebsiteSection) (np : NewsPost) (bp : BlogPost)
      (p : Profile) (j1 j2 : List HTok) (j3 j4 : Option (List HTok)),
      (WebsiteSection.save now ws).1.body_html
          = renderMarkdown ((WebsiteSection.save now ws).1.body_markdown) ∧
      (WebsiteSection.save now { ws with body_html := j1 }).1
          = (WebsiteSection.save now ws).1 ∧
      (NewsPost.save now np).1.body_html
          = renderMarkdown ((NewsPost.save now np).1.body_markdown) ∧
      (NewsPost.save now { np with body_html := j2 }).1
          = (NewsPost.save now np).1 ∧
      (BlogPost.save now bp).1.body_html
          = some (renderMarkdown ((BlogPost.save now bp).1.body)) ∧
      (BlogPost.save now { bp with body_html := j3 }).1
          = (BlogPost.save now bp).1 ∧
      profileResultHtml (Profile.save now p).1
          = Option.map bleach_clean
              (exceptToOption (markdown_markdown p.profile_page_markdown)) ∧
      (Profile.save now { p with profile_page_html := j4 }).1
          = (Profile.save now p).1 := by
  intro now ws np bp p j1 j2 j3 j4
  refine ⟨rfl, rfl, rfl, rfl, rfl, rfl, ?_, ?_⟩
  · cases h : markdown_markdown p.profile_page_markdown with
    | error e => simp [Profile.save, h, profileResultHtml, exceptToOption]
    | ok toks => simp [Profile.save, h, profileResultHtml, exceptToOption]
  · cases h : markdown_markdown p.profile_page_markdown with
    | error e => simp [Profile.save, h]
    | ok toks => simp [Profile.save, h]

/-- C3 (code bug): rendering the empty string does return the empty output
with no error, but a null Markdown source is not treated as empty: the model
of markdown.markdown raises on None (AttributeError, None has no strip
method), so saving a Profile whose nullable profile_page_markdown is NULL
aborts with the propagated error instead of rendering the empty string. -/
theorem C3_null_markdown_raises :
    markdown_markdown (some "") = Except.ok [] ∧
    markdown_markdown none = Except.error RenderError.attributeErrorNoneInput ∧
    (Profile.save 0 profileNull).1
        = Except.error RenderError.attributeErrorNoneInput ∧
    (Profile.save 0 profileNull).2 = [] :=
  ⟨rfl, rfl, rfl, rfl⟩

/-- C4: when rendering fails during a save, the error propagates as the save
result and the save is fully aborted: the event list is empty, so neither a
cache invalidation nor a persistence write happens and the persisted state is
unchanged (in particular the Markdown source is never persisted without its
rendered HTML). -/
theorem C4_render_failure_aborts_save :
    ∀ (now : Nat) (p : Profile) (e : RenderError),
      markdown_markdown p.profile_page_markdown = Except.error e →
      (Profile.save now p).1 = Except.error e ∧ (Profile.save now p).2 = [] := by
  intro now p e h
  constructor <;> simp [Profile.save, h]

/-- Witness for C4 at a concrete input: the Profile with NULL Markdown makes
the render fail, and the saved outcome is the propagated error with no side
effects. -/
theorem C4_render_failure_aborts_save_witness :
    markdown_markdown profileNull.profile_page_markdown
        = Except.error RenderError.attributeErrorNoneInput ∧
    ((Profile.save 0 profileNull).1
        = Except.error RenderError.attributeErrorNoneInput ∧
     (Profile.save 0 profileNull).2 = []) :=
  ⟨rfl, C4_render_failure_aborts_save 0 profileNull
          RenderError.attributeErrorNoneInput rfl⟩

/-- C5 counterexample: Profile and BlogPost have no modified timestamp field
at all, so saving the same record at two different instants persists identical
records; a variant that updated a modified timestamp on every save would have
to produce different records at different instants.  This refutes the claim
that every ContentRecord variant has a modified timestamp updated on every
save. -/
theorem C5_counterexample :
    ∃ (t1 t2 : Nat), t1 ≠ t2 ∧
      (BlogPost.save t1 blogPostHello).1 = (BlogPost.save t2 blogPostHello).1 ∧
      Profile.save t1 profileHello = Profile.save t2 profileHello :=
  ⟨1, 2, by decide, rfl, rfl⟩

/-- C5 amended: WebsiteSection and NewsPost stamp their modified field with
the save instant on every save; Profile and BlogPost have no modified
timestamp and their saves do not depend on the clock at all. -/
theorem C5_modified_only_on_section_and_news :
    ∀ (now now2 : Nat) (ws : WebsiteSection) (np : NewsPost) (p : Profile)
      (bp : BlogPost),
      (WebsiteSection.save now ws).1.modified = now ∧
      (NewsPost.save now np).1.modified = now ∧
      Profile.save now p = Profile.save now2 p ∧
      BlogPost.save now bp = BlogPost.save now2 bp := by
  intro now now2 ws np p bp
  exact ⟨rfl, rfl, rfl, rfl⟩

/-- C6 counterexample: the claim says a save persists the record first and
only then invalidates the cache; in the code cache.clear() runs before the
framework save, so at this concrete record the save emits a cache
invalidation strictly before the persistence write. -/
theorem C6_counterexample :
    invalidatesOnlyAfterPersist ((WebsiteSection.save 0 sectionHello).2)
      = false := rfl

/-- C6 amended: every successful save of a rendering model performs exactly
one full cache invalidation, but the invalidation precedes the persistence
write rather than following it; a failed Profile render performs neither. -/
theorem C6_cache_cleared_once_before_persist :
    ∀ (now : Nat) (ws : WebsiteSection) (np : NewsPost) (bp : BlogPost)
      (p : Profile),
      (WebsiteSection.save now ws).2 = [SaveEvent.cacheClear, SaveEvent.dbWrite] ∧
      countClears ((WebsiteSection.save now ws).2) = 1 ∧
      clearPrecedesWrite ((WebsiteSection.save now ws).2) = true ∧
      (NewsPost.save now np).2 = [SaveEvent.cacheClear, SaveEvent.dbWrite] ∧
      (BlogPost.save now bp).2 = [SaveEvent.cacheClear, SaveEvent.dbWrite] ∧
      (Profile.save now p).2
        = (match markdown_markdown p.profile_page_markdown with
           | Except.ok _ => [SaveEvent.cacheClear, SaveEvent.dbWrite]
           | Except.error _ => ([] : List SaveEvent)) := by
  intro now ws np bp p
  refine ⟨rfl, rfl, rfl, rfl, rfl, ?_⟩
  cases h : markdown_markdown p.profile_page_markdown with
  | ok toks => simp [Profile.save, h]
  | error e => simp [Profile.save, h]

/-- C7: sanitization is idempotent on rendered output: applying the bleach
model to the already-sanitized render of any Markdown input yields the same
token stream, with nothing further stripped. -/
theorem C7_sanitization_idempotent :
    ∀ m : String, bleach_clean (renderMarkdown m) = renderMarkdown m := by
  intro m
  exact clean_idem (mdExpand m)

/-- C8: rendering the script-injection input produces output with no script
tag: Markdown passes the raw script element through, and bleach converts both
script tag tokens into character data because script is not an allowed tag. -/
theorem C8_script_tag_removed :
    containsTagNamed
        (renderMarkdown "<script>alert(1)</script>hello") "script" = false :=
  rfl

/-- C9 counterexample: rendering the fenced code block input yields no pre
element at all, refuting the claim that the output contains a pre and code
pairing with highlighter-compatible class markup.  The repository loads only
the codehilite extension; the fenced_code extension, which is the one that
turns backtick fences into pre blocks, is not enabled, so the fence is read
as an inline backtick code span. -/
theorem C9_counterexample :
    containsTagNamed (renderMarkdown "```\ncode\n```") "pre" = false := rfl

/-- C9 amended: rendering the fenced code block input produces an inline code
span inside a paragraph, with a code element but no pre element and no class
annotation, because the fenced_code extension is not enabled. -/
theorem C9_fence_renders_as_code_span :
    renderMarkdown "```\ncode\n```"
      = [HTok.startTag "p" [], HTok.startTag "code" [], HTok.text "code",
         HTok.endTag "code", HTok.endTag "p"] := rfl

/-- C10: every save of the non-rendering models Publication, Course and
CarouselImage stamps the modified field with the save instant and performs
exactly one full cache invalidation, and the invalidation precedes the
persistence write. -/
theorem C10_nonrendering_saves :
    ∀ (now : Nat) (pub : Publication) (c : Course) (ci : CarouselImage),
      (Publication.save now pub).1.modified = now ∧
      (Publication.save now pub).2 = [SaveEvent.cacheClear, SaveEvent.dbWrite] ∧
      clearPrecedesWrite ((Publication.save now pub).2) = true ∧
      countClears ((Publication.save now pub).2) = 1 ∧
      (Course.save now c).1.modified = now ∧
      (Course.save now c).2 = [SaveEvent.cacheClear, SaveEvent.dbWrite] ∧
      clearPrecedesWrite ((Course.save now c).2) = true ∧
      (CarouselImage.save now ci).1.modified = now ∧
      (CarouselImage.save now ci).2 = [SaveEvent.cacheClear, SaveEvent.dbWrite] ∧
      clearPrecedesWrite ((CarouselImage.save now ci).2) = true := by
  intro now pub c ci
  exact ⟨rfl, rfl, rfl, rfl, rfl, rfl, rfl, rfl, rfl, rfl⟩
